import Mathlib

/-!
Verification of the sparky Feishu WebSocket protocol client
(`src/websocket.rs`): a shallow embedding of the frame codec usage,
payload decoder, acknowledgment protocol, heartbeat manager, transport
session and event dispatcher, together with theorems settling the
specification's claims about them.

External library functions (prost frame decoding, flate2 gzip
decompression, serde JSON parsing, `String::from_utf8_lossy`) are not
code of this repository; they are abstracted as parameters collected in
an `Env` record.  `String::from_utf8_lossy` and trimming are total in
Rust, which the parameter types reflect.  Bytes are modelled as `List
Nat`, the i32/i64 machine integers as `Int` (no arithmetic is performed
on them apart from the single `as u64` cast, modelled explicitly).
-/

namespace Sparky

/-- One protobuf header entry (`pbbp2::Header`): a key/value string pair. -/
structure Header where
  key : String
  value : String
  deriving DecidableEq, Repr

/-- The protobuf wire frame (`pbbp2::Frame`) as used by `websocket.rs`:
tracing ids, a service id, the method discriminant, an ordered header
list (keys not guaranteed unique), and the optional payload fields. -/
structure Frame where
  seq_id : Int
  log_id : Int
  service : Int
  method : Int
  headers : List Header
  payload_encoding : Option String
  payload_type : Option String
  payload : Option (List Nat)
  log_id_new : Option String
  deriving DecidableEq, Repr

/-- `FRAME_METHOD_CONTROL` in `websocket.rs`. -/
def FRAME_METHOD_CONTROL : Int := 1

/-- `FRAME_METHOD_DATA` in `websocket.rs`. -/
def FRAME_METHOD_DATA : Int := 2

/-- `HEADER_TYPE` in `websocket.rs`. -/
def HEADER_TYPE : String := "type"

/-- `HEADER_MESSAGE_ID` in `websocket.rs`. -/
def HEADER_MESSAGE_ID : String := "message_id"

/-- `HEADER_SUM` in `websocket.rs`. -/
def HEADER_SUM : String := "sum"

/-- `HEADER_SEQ` in `websocket.rs`. -/
def HEADER_SEQ : String := "seq"

/-- `HEADER_TRACE_ID` in `websocket.rs`. -/
def HEADER_TRACE_ID : String := "trace_id"

/-- `MSG_TYPE_PING` in `websocket.rs`. -/
def MSG_TYPE_PING : String := "ping"

/-- `MSG_TYPE_PONG` in `websocket.rs`. -/
def MSG_TYPE_PONG : String := "pong"

/-- `MSG_TYPE_EVENT` in `websocket.rs`. -/
def MSG_TYPE_EVENT : String := "event"

/-- `MSG_TYPE_ACK` in `websocket.rs`. -/
def MSG_TYPE_ACK : String := "ack"

/-- ASCII lower-casing of one character, as used by Rust's
`eq_ignore_ascii_case`. -/
def asciiLower (c : Char) : Char :=
  if 'A' ≤ c && c ≤ 'Z' then Char.ofNat (c.toNat + 32) else c

/-- Rust `str::eq_ignore_ascii_case`: equality after ASCII lower-casing. -/
def eqIgnoreAsciiCase (a b : String) : Bool :=
  a.data.map asciiLower == b.data.map asciiLower

/-- Rust slice `starts_with`: `bytesStartWith p bs` holds when `p` is an
initial segment of `bs`. -/
def bytesStartWith : List Nat → List Nat → Bool
  | [], _ => true
  | _ :: _, [] => false
  | p :: ps, b :: bs => p == b && bytesStartWith ps bs

/-- `FeishuWsClient::get_header_value`: first header whose key matches,
returning its value. -/
def get_header_value (frame : Frame) (key : String) : Option String :=
  (frame.headers.find? (fun h => h.key == key)).map (fun h => h.value)

/-- `FeishuWsClient::create_ping_frame`: a Control-method frame with one
`type=ping` header and no payload. -/
def create_ping_frame (service_id : Int) : Frame :=
  { seq_id := 0
    log_id := 0
    service := service_id
    method := FRAME_METHOD_CONTROL
    headers := [{ key := HEADER_TYPE, value := MSG_TYPE_PING }]
    payload_encoding := none
    payload_type := none
    payload := none
    log_id_new := none }

/-- `FeishuWsClient::create_control_frame`: a Control-method frame with
the given headers and no payload. -/
def create_control_frame (service_id : Int) (headers : List Header) : Frame :=
  { seq_id := 0
    log_id := 0
    service := service_id
    method := FRAME_METHOD_CONTROL
    headers := headers
    payload_encoding := none
    payload_type := none
    payload := none
    log_id_new := none }

/-- The frame built by `FeishuWsClient::send_pong` for a given inbound
service id. -/
def pong_frame (service_id : Int) : Frame :=
  create_control_frame service_id [{ key := HEADER_TYPE, value := MSG_TYPE_PONG }]

/-- The ack-construction part of `FeishuWsClient::send_ack`: `none` when
any of `message_id`, `sum`, `seq` is missing (the function returns
`Ok(())` early without writing), otherwise the ack frame that gets
encoded and written. -/
def maybe_ack (frame : Frame) : Option Frame :=
  let message_id := get_header_value frame HEADER_MESSAGE_ID
  let sum := get_header_value frame HEADER_SUM
  let seq := get_header_value frame HEADER_SEQ
  let trace_id := get_header_value frame HEADER_TRACE_ID
  if message_id.isNone || sum.isNone || seq.isNone then
    none
  else
    let base :=
      [{ key := HEADER_TYPE, value := MSG_TYPE_ACK },
       { key := HEADER_MESSAGE_ID, value := message_id.getD "" },
       { key := HEADER_SUM, value := sum.getD "" },
       { key := HEADER_SEQ, value := seq.getD "" }]
    let headers :=
      match trace_id with
      | some t => base ++ [{ key := HEADER_TRACE_ID, value := t }]
      | none => base
    some (create_control_frame frame.service headers)

/-- `FeishuWsClient::decode_payload`.  `gunzip` abstracts
`GzDecoder::read_to_string` (flate2), `lossy` abstracts the total
`String::from_utf8_lossy`.  Returns `none` when the frame has no
payload; gunzips when the encoding header case-insensitively equals
`"gzip"` or the bytes start with `0x1f 0x8b`. -/
def decode_payload (gunzip : List Nat → Except Unit String)
    (lossy : List Nat → String) (frame : Frame) : Except Unit (Option String) :=
  match frame.payload with
  | none => Except.ok none
  | some payload =>
    let payload_encoding := frame.payload_encoding.getD ""
    let is_gzip := eqIgnoreAsciiCase payload_encoding "gzip"
      || bytesStartWith [0x1f, 0x8b] payload
    if is_gzip then
      match gunzip payload with
      | Except.ok output => Except.ok (some output)
      | Except.error e => Except.error e
    else
      Except.ok (some (lossy payload))

/-- A structural JSON value, standing for `serde_json::Value` (numbers
are irrelevant to this client's logic and kept as `Int`). -/
inductive Json where
  | null : Json
  | bool (b : Bool) : Json
  | num (n : Int) : Json
  | str (s : String) : Json
  | arr (xs : List Json) : Json
  | obj (fields : List (String × Json)) : Json

/-- `serde_json::Value::get` on an object: lookup by key (serde maps
hold unique keys, so first-match lookup coincides). -/
def Json.get : Json → String → Option Json
  | Json.obj fields, key => (fields.find? (fun kv => kv.1 == key)).map (fun kv => kv.2)
  | _, _ => none

/-- `serde_json::Value::as_str`. -/
def Json.asStr : Json → Option String
  | Json.str s => some s
  | _ => none

/-- `EventHeader` in `websocket.rs`. -/
structure EventHeader where
  event_id : String
  event_type : String
  create_time : String
  token : String
  app_id : String
  tenant_key : String

/-- `EventPayload` in `websocket.rs`: the decoded application payload of
a data frame. -/
structure EventPayload where
  schema : String
  header : EventHeader
  event : Json

/-- An observable side effect of the client: a frame written to the
socket (`write.send` of the encoded frame), the user-choice file write
(`save_user_choice`), or the AppleScript keystroke injection
(`send_permission_response`). -/
inductive Effect where
  | writeFrame (f : Frame) : Effect
  | saveUserChoice (choice : String) : Effect
  | sendPermissionResponse (choice : String) : Effect
  deriving DecidableEq

/-- The outcome of one handler call: the effects it performed, in
order, and its `Result<()>` (errors carry no data in this model). -/
structure HandlerOut where
  effects : List Effect
  result : Except Unit Unit

/-- The external functions `websocket.rs` calls into: prost
`Frame::decode`, flate2 gunzip, `String::from_utf8_lossy`,
`serde_json::from_str::<EventPayload>` and
`serde_json::from_str::<Value>`. -/
structure Env where
  decodeFrame : List Nat → Except Unit Frame
  gunzip : List Nat → Except Unit String
  lossy : List Nat → String
  parseEvent : String → Except Unit EventPayload
  parseJson : String → Except Unit Json

/-- The write performed by `FeishuWsClient::send_ack` (empty when the
ack headers are missing and the function returns early). -/
def send_ack (frame : Frame) : List Effect :=
  match maybe_ack frame with
  | some ack => [Effect.writeFrame ack]
  | none => []

/-- The write performed by `FeishuWsClient::send_pong`. -/
def send_pong (service_id : Int) : List Effect :=
  [Effect.writeFrame (pong_frame service_id)]

/-- `FeishuWsClient::handle_card_action`: extract
`action.value.choice` as a string and save it; absence of any level is
tolerated. -/
def handle_card_action (event_data : Json) : HandlerOut :=
  match Json.get event_data "action" with
  | some action =>
    match Json.get action "value" with
    | some value =>
      match Json.get value "choice" with
      | some choice =>
        match Json.asStr choice with
        | some choice_str =>
          { effects := [Effect.saveUserChoice choice_str], result := Except.ok () }
        | none => { effects := [], result := Except.ok () }
      | none => { effects := [], result := Except.ok () }
    | none => { effects := [], result := Except.ok () }
  | none => { effects := [], result := Except.ok () }

/-- Rust `char::is_whitespace`: the Unicode `White_Space` property
(tab through carriage return, space, next line, no-break space, ogham
space mark, the U+2000 range, line and paragraph separators, narrow
no-break space, medium mathematical space, ideographic space). -/
def rustIsWhitespace (c : Char) : Bool :=
  c.toNat = 0x09 || c.toNat = 0x0A || c.toNat = 0x0B || c.toNat = 0x0C
    || c.toNat = 0x0D || c.toNat = 0x20 || c.toNat = 0x85 || c.toNat = 0xA0
    || c.toNat = 0x1680 || (0x2000 ≤ c.toNat && c.toNat ≤ 0x200A)
    || c.toNat = 0x2028 || c.toNat = 0x2029 || c.toNat = 0x202F
    || c.toNat = 0x205F || c.toNat = 0x3000

/-- Rust `str::trim` as used on the extracted text: drop leading and
trailing Unicode `White_Space` characters. -/
def rustTrim (s : String) : String :=
  String.mk (((s.data.dropWhile rustIsWhitespace).reverse.dropWhile
    rustIsWhitespace).reverse)

/-- The `message_type` binding in
`FeishuWsClient::handle_message_receive`:
`message.message_type` as a string, defaulting to `"unknown"`. -/
def mr_message_type (event_data : Json) : String :=
  (((Json.get event_data "message").bind (fun m => Json.get m "message_type")).bind
    Json.asStr).getD "unknown"

/-- The `content` binding in `FeishuWsClient::handle_message_receive`:
`message.content` as a string, defaulting to `""`. -/
def mr_content (event_data : Json) : String :=
  (((Json.get event_data "message").bind (fun m => Json.get m "content")).bind
    Json.asStr).getD ""

/-- The `text_content` computation in
`FeishuWsClient::handle_message_receive`: for a `text` message the
content is parsed as nested JSON and its `text` field extracted
(defaulting to `""`), with a fallback to the raw content when the JSON
parse fails; other message types use the content unchanged. -/
def message_text_content (env : Env) (message_type content : String) : String :=
  if message_type = "text" then
    match env.parseJson content with
    | Except.ok json => ((Json.get json "text").bind Json.asStr).getD ""
    | Except.error _ => content
  else content

/-- `FeishuWsClient::handle_message_receive`: read
`message.message_type` and `message.content` (with the sentinel
defaults of the source), compute the text content, and inject the
permission response exactly when the trimmed text is `"1"` or `"2"`. -/
def handle_message_receive (env : Env) (event_data : Json) : HandlerOut :=
  let message_type := mr_message_type event_data
  let content := mr_content event_data
  let text_content := message_text_content env message_type content
  let trimmed := rustTrim text_content
  if trimmed = "1" ∨ trimmed = "2" then
    { effects := [Effect.sendPermissionResponse trimmed], result := Except.ok () }
  else
    { effects := [], result := Except.ok () }

/-- `FeishuWsClient::handle_event`: route by exact `event_type` string;
unmatched types are logged and dropped. -/
def handle_event (env : Env) (event : EventPayload) : HandlerOut :=
  if event.header.event_type = "card.action.trigger" then
    handle_card_action event.event
  else if event.header.event_type = "im.message.receive_v1" then
    handle_message_receive env event.event
  else
    { effects := [], result := Except.ok () }

/-- `FeishuWsClient::handle_data_frame`: send the ack first, then decode
the payload (propagating its error), then try to parse it as an
`EventPayload` and dispatch; a payload that parses only as generic JSON
(or not at all) is merely logged. -/
def handle_data_frame (env : Env) (frame : Frame) : HandlerOut :=
  let ackEffects := send_ack frame
  match decode_payload env.gunzip env.lossy frame with
  | Except.error e => { effects := ackEffects, result := Except.error e }
  | Except.ok none => { effects := ackEffects, result := Except.ok () }
  | Except.ok (some payload_str) =>
    match env.parseEvent payload_str with
    | Except.ok event =>
      let out := handle_event env event
      { effects := ackEffects ++ out.effects, result := out.result }
    | Except.error _ =>
      { effects := ackEffects, result := Except.ok () }

/-- `FeishuWsClient::handle_control_frame`: ping gets a pong with the
same service id, pong is logged, an `event`-typed frame is forwarded to
the data handler, anything else is logged. -/
def handle_control_frame (env : Env) (frame : Frame) : HandlerOut :=
  match get_header_value frame HEADER_TYPE with
  | some t =>
    if t = MSG_TYPE_PING then
      { effects := send_pong frame.service, result := Except.ok () }
    else if t = MSG_TYPE_PONG then
      { effects := [], result := Except.ok () }
    else if t = MSG_TYPE_EVENT then
      handle_data_frame env frame
    else
      { effects := [], result := Except.ok () }
  | none => { effects := [], result := Except.ok () }

/-- `FeishuWsClient::handle_message`: decode the frame (propagating the
decode error), route `type=event` frames to the data handler regardless
of method, otherwise dispatch by method. -/
def handle_message (env : Env) (data : List Nat) : HandlerOut :=
  match env.decodeFrame data with
  | Except.error e => { effects := [], result := Except.error e }
  | Except.ok frame =>
    if get_header_value frame HEADER_TYPE = some MSG_TYPE_EVENT then
      handle_data_frame env frame
    else if frame.method = FRAME_METHOD_CONTROL then
      handle_control_frame env frame
    else if frame.method = FRAME_METHOD_DATA then
      handle_data_frame env frame
    else
      { effects := [], result := Except.ok () }

/-- `ClientConfig` in `websocket.rs` (fields as deserialized from the
endpoint discovery response). -/
structure ClientConfig where
  reconnect_count : Option Int
  reconnect_interval : Option Int
  ping_interval : Option Int

/-- `EndpointData` in `websocket.rs`. -/
structure EndpointData where
  url : String
  client_config : Option ClientConfig

/-- `EndpointResponse` in `websocket.rs`. -/
structure EndpointResponse where
  code : Int
  msg : Option String
  data : Option EndpointData

/-- The mutable state of `FeishuWsClient` shared between the session and
the heartbeat activity: the `connected` flag and `ping_interval_secs`. -/
structure ClientState where
  connected : Bool
  ping_interval_secs : Nat
  deriving DecidableEq, Repr

/-- `FeishuWsClient::new`: not connected, ping interval 30 seconds. -/
def ClientState.init : ClientState :=
  { connected := false, ping_interval_secs := 30 }

/-- The Rust cast `interval as u64` from `i32`: reduction modulo 2^64 of
the sign-extended value. -/
def u64_of_i32 (i : Int) : Nat := (i.emod (2 ^ 64)).toNat

/-- How `connect` may fail before reaching the receive loop. -/
inductive ConnectError where
  | httpError : ConnectError
  | badCode : ConnectError
  | noData : ConnectError
  | socketError : ConnectError
  deriving DecidableEq, Repr

/-- `FeishuWsClient::get_ws_url`: the HTTP request/JSON deserialization
is abstracted as `httpResult`; a non-zero `code` or missing `data` is an
error; a discovered `ping_interval` is stored into the shared state
before the URL is returned. -/
def get_ws_url (httpResult : Except Unit EndpointResponse) (st : ClientState) :
    ClientState × Except ConnectError String :=
  match httpResult with
  | Except.error _ => (st, Except.error ConnectError.httpError)
  | Except.ok resp =>
    if resp.code ≠ 0 then (st, Except.error ConnectError.badCode)
    else
      match resp.data with
      | none => (st, Except.error ConnectError.noData)
      | some data =>
        let st' :=
          match data.client_config with
          | some config =>
            match config.ping_interval with
            | some interval => { st with ping_interval_secs := u64_of_i32 interval }
            | none => st
          | none => st
        (st', Except.ok data.url)

/-- One inbound `tungstenite` message as seen by the receive loop
(`other` covers the `_ => {}` arm: text frames and the like). -/
inductive WsMsg where
  | binary (data : List Nat) : WsMsg
  | ping : WsMsg
  | pong : WsMsg
  | close : WsMsg
  | other : WsMsg

/-- One item yielded by `read.next()`: a message or a transport-level
read error. -/
inductive ReadItem where
  | msg (m : WsMsg) : ReadItem
  | readError : ReadItem

/-- How the receive loop ended. -/
inductive LoopExit where
  | streamEnded : LoopExit
  | serverClose : LoopExit
  | readError : LoopExit
  deriving DecidableEq, Repr

/-- The receive loop of `FeishuWsClient::connect`: binary messages are
handled (a handler error is logged and the loop continues), transport
pings/pongs are logged, a close message or read error stores
`connected = false` and exits the loop. -/
def recv_loop (env : Env) : List ReadItem → ClientState →
    ClientState × LoopExit × List Effect
  | [], st => (st, LoopExit.streamEnded, [])
  | ReadItem.msg (WsMsg.binary data) :: rest, st =>
    let out := handle_message env data
    let next := recv_loop env rest st
    (next.1, next.2.1, out.effects ++ next.2.2)
  | ReadItem.msg WsMsg.ping :: rest, st => recv_loop env rest st
  | ReadItem.msg WsMsg.pong :: rest, st => recv_loop env rest st
  | ReadItem.msg WsMsg.close :: _, st =>
    ({ st with connected := false }, LoopExit.serverClose, [])
  | ReadItem.msg WsMsg.other :: rest, st => recv_loop env rest st
  | ReadItem.readError :: _, st =>
    ({ st with connected := false }, LoopExit.readError, [])

/-- Everything observable about one `FeishuWsClient::connect`
invocation: the final shared state, the returned `Result<()>`, how the
receive loop ended (`none` when it was never reached), the shared state
at the moment the heartbeat task was spawned (`none` likewise), and the
effects of the receive loop. -/
structure ConnectOutcome where
  state : ClientState
  result : Except ConnectError Unit
  exit : Option LoopExit
  heartbeatStart : Option ClientState
  effects : List Effect

/-- `FeishuWsClient::connect`: endpoint discovery (storing any
discovered ping interval), socket open (`socketOk` abstracts
`connect_async`), `connected := true`, heartbeat spawn, the receive
loop over the inbound items, then heartbeat abort and
`connected := false`; the function returns `Ok(())` after the loop. -/
def connect (env : Env) (httpResult : Except Unit EndpointResponse)
    (socketOk : Bool) (msgs : List ReadItem) (st : ClientState) : ConnectOutcome :=
  match get_ws_url httpResult st with
  | (st0, Except.error e) =>
    { state := st0, result := Except.error e, exit := none,
      heartbeatStart := none, effects := [] }
  | (st1, Except.ok _url) =>
    if socketOk then
      let st2 := { st1 with connected := true }
      let loopOut := recv_loop env msgs st2
      let st4 := { loopOut.1 with connected := false }
      { state := st4, result := Except.ok (), exit := some loopOut.2.1,
        heartbeatStart := some st2, effects := loopOut.2.2 }
    else
      { state := st1, result := Except.error ConnectError.socketError, exit := none,
        heartbeatStart := none, effects := [] }

/-- One iteration of the heartbeat task in `FeishuWsClient::connect`:
load the shared interval, sleep that many seconds (first component),
then either stop because `connected` is false (`none`) or send a ping
frame with service 0 (`some`). -/
def heartbeat_tick (st : ClientState) : Nat × Option Frame :=
  (st.ping_interval_secs,
   if st.connected then some (create_ping_frame 0) else none)

/-- The shape shared by every frame this client constructs for sending:
Control method, zero `seq_id` and `log_id`, and no payload,
payload_encoding or payload_type. -/
def control_frame_shape (f : Frame) : Prop :=
  f.method = FRAME_METHOD_CONTROL ∧ f.seq_id = 0 ∧ f.log_id = 0 ∧
  f.payload = none ∧ f.payload_encoding = none ∧ f.payload_type = none

/-! Concrete instances used to evaluate the model on closed inputs. -/

/-- An environment whose external calls all fail (frame decode, gunzip
and the JSON parsers error; the lossy conversion returns `""`). -/
def env0 : Env :=
  { decodeFrame := fun _ => Except.error ()
    gunzip := fun _ => Except.error ()
    lossy := fun _ => ""
    parseEvent := fun _ => Except.error ()
    parseJson := fun _ => Except.error () }

/-- A discovery response with `code = 0` and no client config. -/
def respPlain : EndpointResponse :=
  { code := 0, msg := none
    data := some { url := "wss://example.feishu.cn/ws", client_config := none } }

/-- A discovery response with `code = 0` and `ping_interval = 20`. -/
def resp20 : EndpointResponse :=
  { code := 0, msg := none
    data := some
      { url := "wss://example.feishu.cn/ws"
        client_config := some
          { reconnect_count := none, reconnect_interval := none
            ping_interval := some 20 } } }

/-- A data frame carrying all three ack headers plus a trace id, whose
payload starts with the gzip magic bytes. -/
def dataFrameFull : Frame :=
  { seq_id := 5, log_id := 6, service := 9, method := FRAME_METHOD_DATA
    headers :=
      [{ key := HEADER_MESSAGE_ID, value := "m1" },
       { key := HEADER_SUM, value := "1" },
       { key := HEADER_SEQ, value := "0" },
       { key := HEADER_TRACE_ID, value := "t1" }]
    payload_encoding := none, payload_type := none
    payload := some [0x1f, 0x8b, 0x08, 0x00], log_id_new := none }

/-- A Control-method frame whose `type` header is `event`. -/
def eventControlFrame : Frame :=
  { seq_id := 0, log_id := 0, service := 3, method := FRAME_METHOD_CONTROL
    headers := [{ key := HEADER_TYPE, value := MSG_TYPE_EVENT }]
    payload_encoding := none, payload_type := none
    payload := none, log_id_new := none }

/-- An environment that decodes every binary message to
`eventControlFrame`. -/
def envEvent : Env :=
  { env0 with decodeFrame := fun _ => Except.ok eventControlFrame }

/-- A frame with no payload at all. -/
def frameNoPayload : Frame :=
  { seq_id := 0, log_id := 0, service := 1, method := FRAME_METHOD_DATA
    headers := [], payload_encoding := none, payload_type := none
    payload := none, log_id_new := none }

/-- A frame whose encoding header is `"GZip"` (wrong case) and whose
payload does not start with the gzip magic. -/
def frameUpperGz : Frame :=
  { seq_id := 0, log_id := 0, service := 1, method := FRAME_METHOD_DATA
    headers := [], payload_encoding := some "GZip", payload_type := none
    payload := some [7, 8, 9], log_id_new := none }

/-- A frame with no encoding header whose payload starts with the gzip
magic bytes. -/
def frameMagic : Frame :=
  { seq_id := 0, log_id := 0, service := 1, method := FRAME_METHOD_DATA
    headers := [], payload_encoding := none, payload_type := none
    payload := some [0x1f, 0x8b, 0x01], log_id_new := none }

/-- A frame whose payload is not valid UTF-8 and not gzip. -/
def frameRawBytes : Frame :=
  { seq_id := 0, log_id := 0, service := 1, method := FRAME_METHOD_DATA
    headers := [], payload_encoding := none, payload_type := none
    payload := some [0xff, 0xfe], log_id_new := none }

/-- An environment that decodes every binary message to `frameMagic`,
whose gzip payload then fails to decompress (a payload decode
failure). -/
def envMagic : Env :=
  { env0 with decodeFrame := fun _ => Except.ok frameMagic }

/-- An environment that decodes every binary message to
`frameRawBytes`, whose payload decodes lossily but then fails to parse
as an `EventPayload` (an event parse failure). -/
def envRaw : Env :=
  { env0 with decodeFrame := fun _ => Except.ok frameRawBytes }

/-- A message-receive event value: a `text` message whose content is
`" 2 "`. -/
def msgEvent : Json :=
  Json.obj
    [("message",
      Json.obj
        [("message_type", Json.str "text"),
         ("content", Json.str " 2 ")])]

/-! Helper lemmas shared by several claims. -/

/-- The card-action handler never writes a frame. -/
theorem handle_card_action_no_write (e : Json) (f : Frame) :
    Effect.writeFrame f ∉ (handle_card_action e).effects := by
  unfold handle_card_action
  repeat' split
  all_goals simp

/-- The message-receive handler never writes a frame. -/
theorem handle_message_receive_no_write (env : Env) (e : Json) (f : Frame) :
    Effect.writeFrame f ∉ (handle_message_receive env e).effects := by
  unfold handle_message_receive
  simp only []
  split <;> simp

/-- The event dispatcher never writes a frame. -/
theorem handle_event_no_write (env : Env) (ev : EventPayload) (f : Frame) :
    Effect.writeFrame f ∉ (handle_event env ev).effects := by
  unfold handle_event
  split
  · exact handle_card_action_no_write _ _
  split
  · exact handle_message_receive_no_write _ _ _
  simp

/-- The data handler's effects start with the ack write (if any) and the
remainder contains no frame writes. -/
theorem handle_data_frame_effects (env : Env) (frame : Frame) :
    ∃ rest, (handle_data_frame env frame).effects = send_ack frame ++ rest ∧
      ∀ f, Effect.writeFrame f ∉ rest := by
  unfold handle_data_frame
  rcases hd : decode_payload env.gunzip env.lossy frame with e | op
  · exact ⟨[], by simp, by simp⟩
  rcases op with _ | s
  · exact ⟨[], by simp, by simp⟩
  rcases hp : env.parseEvent s with e | ev
  · exact ⟨[], by simp [hp], by simp⟩
  exact ⟨(handle_event env ev).effects, by simp [hp], fun f => handle_event_no_write env ev f⟩

/-! The claims. -/

/-- C1 (counterexample): with successful discovery and an inbound
stream ending in a transport-level read error, `connect` reaches the
receive loop, the loop ends with the read error — and the call still
returns `Ok(())`, not the transport error: the error is only logged, so
the claim's error-propagation half is false. -/
theorem C1_counterexample :
    (connect env0 (Except.ok respPlain) true [ReadItem.readError]
      ClientState.init).exit = some LoopExit.readError ∧
    (connect env0 (Except.ok respPlain) true [ReadItem.readError]
      ClientState.init).result = Except.ok () := by
  constructor <;> rfl

/-- C1 (amended): whenever `connect` reaches the receive loop, the call
returns `Ok(())` regardless of how the loop ended — on a clean close and
also on a transport-level read error (which is logged, not returned). -/
theorem C1_connect_returns_ok (env : Env) (httpResult : Except Unit EndpointResponse)
    (socketOk : Bool) (msgs : List ReadItem) (st : ClientState)
    (h : (connect env httpResult socketOk msgs st).exit.isSome = true) :
    (connect env httpResult socketOk msgs st).result = Except.ok () := by
  rcases hg : get_ws_url httpResult st with ⟨st0, r⟩
  rcases r with e | url
  · have hx : (connect env httpResult socketOk msgs st).exit = none := by
      simp [connect, hg]
    simp [hx] at h
  · cases socketOk with
    | false =>
      have hx : (connect env httpResult false msgs st).exit = none := by
        simp [connect, hg]
      simp [hx] at h
    | true => simp [connect, hg]

/-- C1 witness: the amended claim evaluated on a clean server close. -/
theorem C1_witness :
    (connect env0 (Except.ok respPlain) true [ReadItem.msg WsMsg.close]
      ClientState.init).result = Except.ok () :=
  C1_connect_returns_ok env0 (Except.ok respPlain) true [ReadItem.msg WsMsg.close]
    ClientState.init (by rfl)

/-- C3: the data handler's effect trace always begins with the ack
write attempt, and when payload decoding fails for the frame the ack
was still emitted (the effects are exactly the ack write). -/
theorem C3_ack_before_decode (env : Env) (frame : Frame) :
    (∃ rest, (handle_data_frame env frame).effects = send_ack frame ++ rest) ∧
    (∀ e, decode_payload env.gunzip env.lossy frame = Except.error e →
      (handle_data_frame env frame).effects = send_ack frame) := by
  constructor
  · obtain ⟨rest, he, _⟩ := handle_data_frame_effects env frame
    exact ⟨rest, he⟩
  · intro e hd
    simp [handle_data_frame, hd]

/-- C3 witness: a frame whose gzip payload fails to decompress still
has its ack written (and the ack write is non-empty). -/
theorem C3_witness :
    (handle_data_frame env0 dataFrameFull).effects = send_ack dataFrameFull ∧
    send_ack dataFrameFull ≠ [] :=
  ⟨(C3_ack_before_decode env0 dataFrameFull).2 () rfl, by decide⟩

/-- C4: payload decoding returns `none` for a payload-free frame, and
gzip decompression is applied exactly when the encoding header
case-insensitively equals `"gzip"` or the payload starts with the magic
bytes `0x1f 0x8b` — in particular also when the header is absent or
differs in case; otherwise the bytes are lossily converted. -/
theorem C4_decode_payload (gunzip : List Nat → Except Unit String)
    (lossy : List Nat → String) (frame : Frame) :
    (frame.payload = none → decode_payload gunzip lossy frame = Except.ok none) ∧
    (∀ p, frame.payload = some p →
      ((eqIgnoreAsciiCase (frame.payload_encoding.getD "") "gzip" = true
          ∨ bytesStartWith [0x1f, 0x8b] p = true) →
        decode_payload gunzip lossy frame =
          (match gunzip p with
           | Except.ok s => Except.ok (some s)
           | Except.error e => Except.error e)) ∧
      ((eqIgnoreAsciiCase (frame.payload_encoding.getD "") "gzip" = false
          ∧ bytesStartWith [0x1f, 0x8b] p = false) →
        decode_payload gunzip lossy frame = Except.ok (some (lossy p)))) := by
  constructor
  · intro hp
    simp [decode_payload, hp]
  · intro p hp
    constructor
    · intro hg
      have hb : (eqIgnoreAsciiCase (frame.payload_encoding.getD "") "gzip"
          || bytesStartWith [0x1f, 0x8b] p) = true := by
        rcases hg with h | h <;> simp [h]
      simp [decode_payload, hp, hb]
    · intro hng
      have hb : (eqIgnoreAsciiCase (frame.payload_encoding.getD "") "gzip"
          || bytesStartWith [0x1f, 0x8b] p) = false := by
        simp [hng.1, hng.2]
      simp [decode_payload, hp, hb]

/-- C4 witness: evaluated on a payload-free frame, on a wrong-case
`"GZip"` encoding header without magic bytes, and on a magic-prefixed
payload without any encoding header (the failing gunzip of `env0`
surfaces its error in the latter two). -/
theorem C4_witness :
    decode_payload env0.gunzip env0.lossy frameNoPayload = Except.ok none ∧
    decode_payload env0.gunzip env0.lossy frameUpperGz = Except.error () ∧
    decode_payload env0.gunzip env0.lossy frameMagic = Except.error () := by
  have h1 := (C4_decode_payload env0.gunzip env0.lossy frameNoPayload).1 rfl
  have h2 := ((C4_decode_payload env0.gunzip env0.lossy frameUpperGz).2
    [7, 8, 9] rfl).1 (Or.inl (by decide))
  have h3 := ((C4_decode_payload env0.gunzip env0.lossy frameMagic).2
    [0x1f, 0x8b, 0x01] rfl).1 (Or.inr (by decide))
  exact ⟨h1, h2.trans rfl, h3.trans rfl⟩

/-- C5: a decoded frame whose `type` header is `event` is routed to the
data handler no matter what its `method` says; a frame without the
`event` type header is dispatched strictly by method (Control to the
control handler, Data to the data handler, others dropped). -/
theorem C5_event_routing (env : Env) (data : List Nat) (frame : Frame)
    (hdec : env.decodeFrame data = Except.ok frame) :
    (get_header_value frame HEADER_TYPE = some MSG_TYPE_EVENT →
      handle_message env data = handle_data_frame env frame) ∧
    (get_header_value frame HEADER_TYPE ≠ some MSG_TYPE_EVENT →
      handle_message env data =
        (if frame.method = FRAME_METHOD_CONTROL then handle_control_frame env frame
         else if frame.method = FRAME_METHOD_DATA then handle_data_frame env frame
         else { effects := [], result := Except.ok () })) := by
  constructor
  · intro ht
    simp [handle_message, hdec, ht]
  · intro ht
    simp [handle_message, hdec, ht]

/-- C5 witness: a Control-method frame carrying `type=event` is routed
to the data handler. -/
theorem C5_witness :
    handle_message envEvent [] = handle_data_frame envEvent eventControlFrame ∧
    eventControlFrame.method = FRAME_METHOD_CONTROL :=
  ⟨(C5_event_routing envEvent [] eventControlFrame rfl).1 rfl, rfl⟩

/-- C8: whatever handling a binary message comes to — frame decode
failure, payload decode failure, event parse failure, or success — the
receive loop is undisturbed: the final state, the exit reason and the
remaining processing are those of the rest of the stream, and such a
message alone leaves the state (in particular `connected`) untouched
with the loop running to stream end. -/
theorem C8_recoverable_per_message (env : Env) (data : List Nat)
    (rest : List ReadItem) (st : ClientState) :
    (recv_loop env (ReadItem.msg (WsMsg.binary data) :: rest) st).1
      = (recv_loop env rest st).1 ∧
    (recv_loop env (ReadItem.msg (WsMsg.binary data) :: rest) st).2.1
      = (recv_loop env rest st).2.1 ∧
    (recv_loop env (ReadItem.msg (WsMsg.binary data) :: rest) st).2.2
      = (handle_message env data).effects ++ (recv_loop env rest st).2.2 ∧
    (recv_loop env [ReadItem.msg (WsMsg.binary data)] st).1 = st ∧
    (recv_loop env [ReadItem.msg (WsMsg.binary data)] st).2.1
      = LoopExit.streamEnded :=
  ⟨rfl, rfl, rfl, rfl, rfl⟩

/-- C8 witness: all three named failure kinds continue the loop — a
frame decode failure (handler errors), a payload decode failure
(handler errors), and an event parse failure (the handler itself
returns Ok per websocket.rs:313-317) — each leaving the state untouched
and the loop ending by stream end, not by an error exit. -/
theorem C8_witness :
    (handle_message env0 [0]).result = Except.error () ∧
    (recv_loop env0 [ReadItem.msg (WsMsg.binary [0])] ClientState.init).1
      = ClientState.init ∧
    (recv_loop env0 [ReadItem.msg (WsMsg.binary [0])] ClientState.init).2.1
      = LoopExit.streamEnded ∧
    (handle_message envMagic [1]).result = Except.error () ∧
    (recv_loop envMagic [ReadItem.msg (WsMsg.binary [1])] ClientState.init).1
      = ClientState.init ∧
    (recv_loop envMagic [ReadItem.msg (WsMsg.binary [1])] ClientState.init).2.1
      = LoopExit.streamEnded ∧
    (handle_message envRaw [2]).result = Except.ok () ∧
    (recv_loop envRaw [ReadItem.msg (WsMsg.binary [2])] ClientState.init).1
      = ClientState.init ∧
    (recv_loop envRaw [ReadItem.msg (WsMsg.binary [2])] ClientState.init).2.1
      = LoopExit.streamEnded := by
  have h0 := C8_recoverable_per_message env0 [0] [] ClientState.init
  have h1 := C8_recoverable_per_message envMagic [1] [] ClientState.init
  have h2 := C8_recoverable_per_message envRaw [2] [] ClientState.init
  exact ⟨rfl, h0.2.2.2.1, h0.2.2.2.2, rfl, h1.2.2.2.1, h1.2.2.2.2,
    rfl, h2.2.2.2.1, h2.2.2.2.2⟩

/-- C9: when neither gzip condition holds (encoding header not
case-insensitively `"gzip"`, payload not starting with `0x1f 0x8b`),
payload decoding cannot fail: the bytes go through the total lossy
conversion, so the error branch is reachable only via gzip. -/
theorem C9_non_gzip_never_errors (gunzip : List Nat → Except Unit String)
    (lossy : List Nat → String) (frame : Frame) (p : List Nat)
    (hp : frame.payload = some p)
    (henc : eqIgnoreAsciiCase (frame.payload_encoding.getD "") "gzip" = false)
    (hmagic : bytesStartWith [0x1f, 0x8b] p = false) :
    decode_payload gunzip lossy frame = Except.ok (some (lossy p)) := by
  simp [decode_payload, hp, henc, hmagic]

/-- C9 witness: a payload that is neither gzip nor valid UTF-8 decodes
without error via the lossy conversion. -/
theorem C9_witness :
    decode_payload env0.gunzip env0.lossy frameRawBytes = Except.ok (some "") :=
  C9_non_gzip_never_errors env0.gunzip env0.lossy frameRawBytes [0xff, 0xfe]
    rfl (by decide) (by decide)

/-- C2: in the data handler an ack frame is emitted iff the inbound
frame carries all three of `message_id`, `sum` and `seq`; when emitted
it is the first write, reuses the inbound `service`, sets `type=ack`,
copies `message_id`, `sum` and `seq` verbatim, passes `trace_id`
through (present or absent), and carries no payload; when any of the
three headers is missing no frame is written at all. -/
theorem C2_ack_protocol (env : Env) (frame : Frame) :
    match maybe_ack frame with
    | some ack =>
      ((get_header_value frame HEADER_MESSAGE_ID).isSome = true
        ∧ (get_header_value frame HEADER_SUM).isSome = true
        ∧ (get_header_value frame HEADER_SEQ).isSome = true)
      ∧ ack.service = frame.service
      ∧ get_header_value ack HEADER_TYPE = some MSG_TYPE_ACK
      ∧ get_header_value ack HEADER_MESSAGE_ID = get_header_value frame HEADER_MESSAGE_ID
      ∧ get_header_value ack HEADER_SUM = get_header_value frame HEADER_SUM
      ∧ get_header_value ack HEADER_SEQ = get_header_value frame HEADER_SEQ
      ∧ get_header_value ack HEADER_TRACE_ID = get_header_value frame HEADER_TRACE_ID
      ∧ ack.payload = none
      ∧ (handle_data_frame env frame).effects.head? = some (Effect.writeFrame ack)
    | none =>
      ((get_header_value frame HEADER_MESSAGE_ID).isSome = false
        ∨ (get_header_value frame HEADER_SUM).isSome = false
        ∨ (get_header_value frame HEADER_SEQ).isSome = false)
      ∧ ∀ f, Effect.writeFrame f ∉ (handle_data_frame env frame).effects := by
  obtain ⟨rest, he, hno⟩ := handle_data_frame_effects env frame
  rcases h1 : get_header_value frame HEADER_MESSAGE_ID with _ | m
  · have hma : maybe_ack frame = none := by simp [maybe_ack, h1]
    rw [hma]
    refine ⟨Or.inl (by simp [h1]), fun f hf => ?_⟩
    rw [he] at hf
    have hs : send_ack frame = [] := by simp [send_ack, hma]
    rw [hs] at hf
    exact hno f (by simpa using hf)
  rcases h2 : get_header_value frame HEADER_SUM with _ | su
  · have hma : maybe_ack frame = none := by simp [maybe_ack, h2]
    rw [hma]
    refine ⟨Or.inr (Or.inl (by simp [h2])), fun f hf => ?_⟩
    rw [he] at hf
    have hs : send_ack frame = [] := by simp [send_ack, hma]
    rw [hs] at hf
    exact hno f (by simpa using hf)
  rcases h3 : get_header_value frame HEADER_SEQ with _ | sq
  · have hma : maybe_ack frame = none := by simp [maybe_ack, h3]
    rw [hma]
    refine ⟨Or.inr (Or.inr (by simp [h3])), fun f hf => ?_⟩
    rw [he] at hf
    have hs : send_ack frame = [] := by simp [send_ack, hma]
    rw [hs] at hf
    exact hno f (by simpa using hf)
  rcases h4 : get_header_value frame HEADER_TRACE_ID with _ | tr
  · have hma : maybe_ack frame = some (create_control_frame frame.service
        [{ key := HEADER_TYPE, value := MSG_TYPE_ACK },
         { key := HEADER_MESSAGE_ID, value := m },
         { key := HEADER_SUM, value := su },
         { key := HEADER_SEQ, value := sq }]) := by
      simp [maybe_ack, h1, h2, h3, h4]
    rw [hma]
    refine ⟨⟨by simp [h1], by simp [h2], by simp [h3]⟩, rfl, rfl, rfl, rfl, rfl, rfl, rfl, ?_⟩
    · rw [he]
      have hs : send_ack frame = [Effect.writeFrame (create_control_frame frame.service
          [{ key := HEADER_TYPE, value := MSG_TYPE_ACK },
           { key := HEADER_MESSAGE_ID, value := m },
           { key := HEADER_SUM, value := su },
           { key := HEADER_SEQ, value := sq }])] := by
        simp [send_ack, hma]
      rw [hs]
      rfl
  · have hma : maybe_ack frame = some (create_control_frame frame.service
        [{ key := HEADER_TYPE, value := MSG_TYPE_ACK },
         { key := HEADER_MESSAGE_ID, value := m },
         { key := HEADER_SUM, value := su },
         { key := HEADER_SEQ, value := sq },
         { key := HEADER_TRACE_ID, value := tr }]) := by
      simp [maybe_ack, h1, h2, h3, h4]
    rw [hma]
    refine ⟨⟨by simp [h1], by simp [h2], by simp [h3]⟩, rfl, rfl, rfl, rfl, rfl, rfl, rfl, ?_⟩
    · rw [he]
      have hs : send_ack frame = [Effect.writeFrame (create_control_frame frame.service
          [{ key := HEADER_TYPE, value := MSG_TYPE_ACK },
           { key := HEADER_MESSAGE_ID, value := m },
           { key := HEADER_SUM, value := su },
           { key := HEADER_SEQ, value := sq },
           { key := HEADER_TRACE_ID, value := tr }])] := by
        simp [send_ack, hma]
      rw [hs]
      rfl

/-- C2 witness: a data frame carrying `message_id`, `sum`, `seq` and a
trace id gets an ack emitted as its first effect, with no payload. -/
theorem C2_witness :
    ∃ ack, (handle_data_frame env0 dataFrameFull).effects.head?
        = some (Effect.writeFrame ack) ∧ ack.payload = none
        ∧ ack.service = dataFrameFull.service := by
  have h := C2_ack_protocol env0 dataFrameFull
  exact ⟨_, h.2.2.2.2.2.2.2.2, h.2.2.2.2.2.2.2.1, h.2.1⟩

/-- C6: the heartbeat interval starts at 30 seconds; every tick
re-reads the shared interval before sleeping; and because endpoint
discovery stores the discovered interval before the socket opens, the
state the heartbeat task is spawned from already carries the discovered
value, so the very first heartbeat sleeps that long. -/
theorem C6_heartbeat_interval (env : Env) (msgs : List ReadItem) (st : ClientState)
    (resp : EndpointResponse) (d : EndpointData) (cfg : ClientConfig) (n : Int)
    (hcode : resp.code = 0) (hdata : resp.data = some d)
    (hcfg : d.client_config = some cfg) (hn : cfg.ping_interval = some n) :
    ClientState.init.ping_interval_secs = 30 ∧
    (∀ s : ClientState, (heartbeat_tick s).1 = s.ping_interval_secs) ∧
    (∃ hb : ClientState,
      (connect env (Except.ok resp) true msgs st).heartbeatStart = some hb ∧
      hb.ping_interval_secs = u64_of_i32 n ∧
      (heartbeat_tick hb).1 = u64_of_i32 n) := by
  refine ⟨rfl, fun s => rfl, ?_⟩
  have hg : get_ws_url (Except.ok resp) st =
      ({ st with ping_interval_secs := u64_of_i32 n }, Except.ok d.url) := by
    simp [get_ws_url, hcode, hdata, hcfg, hn]
  refine ⟨{ connected := true, ping_interval_secs := u64_of_i32 n }, ?_, rfl, rfl⟩
  simp [connect, hg]

/-- C6 witness: with a discovered `ping_interval` of 20, the heartbeat
task starts from interval 20 — its first tick sleeps 20 seconds, not
the default 30. -/
theorem C6_witness :
    ClientState.init.ping_interval_secs = 30 ∧
    (∃ hb : ClientState,
      (connect env0 (Except.ok resp20) true [] ClientState.init).heartbeatStart
        = some hb ∧
      hb.ping_interval_secs = 20 ∧ (heartbeat_tick hb).1 = 20) := by
  have h := C6_heartbeat_interval env0 [] ClientState.init resp20
    { url := "wss://example.feishu.cn/ws"
      client_config := some { reconnect_count := none, reconnect_interval := none
                              ping_interval := some 20 } }
    { reconnect_count := none, reconnect_interval := none, ping_interval := some 20 }
    20 rfl rfl rfl rfl
  obtain ⟨h30, _, hb, hhb, hv, ht⟩ := h
  have hu : u64_of_i32 20 = 20 := by decide
  exact ⟨h30, hb, hhb, by rw [hv, hu], by rw [ht, hu]⟩

/-- C7: in the message-receive handler a `text` message's content is
parsed as nested JSON whose `text` field is extracted, a JSON parse
failure falls back to the raw content, and the external permission side
effect is invoked exactly when the trimmed resulting text is `"1"` or
`"2"`. -/
theorem C7_message_receive (env : Env) (event_data : Json) :
    (∀ j, mr_message_type event_data = "text" →
      env.parseJson (mr_content event_data) = Except.ok j →
      message_text_content env (mr_message_type event_data) (mr_content event_data)
        = ((Json.get j "text").bind Json.asStr).getD "") ∧
    (mr_message_type event_data = "text" →
      env.parseJson (mr_content event_data) = Except.error () →
      message_text_content env (mr_message_type event_data) (mr_content event_data)
        = mr_content event_data) ∧
    ((handle_message_receive env event_data).effects =
      if rustTrim (message_text_content env (mr_message_type event_data)
            (mr_content event_data)) = "1"
          ∨ rustTrim (message_text_content env (mr_message_type event_data)
            (mr_content event_data)) = "2"
      then [Effect.sendPermissionResponse (rustTrim (message_text_content env
            (mr_message_type event_data) (mr_content event_data)))]
      else []) := by
  refine ⟨fun j ht hp => ?_, fun ht hp => ?_, ?_⟩
  · simp [message_text_content, ht, hp]
  · simp [message_text_content, ht, hp]
  · by_cases hc : rustTrim (message_text_content env (mr_message_type event_data)
        (mr_content event_data)) = "1"
      ∨ rustTrim (message_text_content env (mr_message_type event_data)
        (mr_content event_data)) = "2"
    · simp [handle_message_receive, hc]
    · simp [handle_message_receive, hc]

/-- C7 witness: a text message whose content `" 2 "` fails JSON parsing
falls back to the raw content; trimmed it is `"2"`, so the permission
side effect fires with `"2"`. -/
theorem C7_witness :
    message_text_content env0 (mr_message_type msgEvent) (mr_content msgEvent)
      = " 2 " ∧
    (handle_message_receive env0 msgEvent).effects
      = [Effect.sendPermissionResponse "2"] := by
  have h := C7_message_receive env0 msgEvent
  exact ⟨(h.2.1 rfl rfl).trans rfl, h.2.2.trans (by decide)⟩

/-- C10: every frame this client constructs for sending — ping, pong
and ack — has Control method, `seq_id = 0`, `log_id = 0`, and no
payload, payload_encoding or payload_type. -/
theorem C10_outbound_frames (service : Int) (hs : List Header) (frame : Frame) :
    control_frame_shape (create_ping_frame service) ∧
    control_frame_shape (create_control_frame service hs) ∧
    control_frame_shape (pong_frame service) ∧
    (∀ ack, maybe_ack frame = some ack → control_frame_shape ack) := by
  refine ⟨⟨rfl, rfl, rfl, rfl, rfl, rfl⟩, ⟨rfl, rfl, rfl, rfl, rfl, rfl⟩,
    ⟨rfl, rfl, rfl, rfl, rfl, rfl⟩, fun ack hack => ?_⟩
  rcases h1 : get_header_value frame HEADER_MESSAGE_ID with _ | m
  · simp [maybe_ack, h1] at hack
  rcases h2 : get_header_value frame HEADER_SUM with _ | su
  · simp [maybe_ack, h2] at hack
  rcases h3 : get_header_value frame HEADER_SEQ with _ | sq
  · simp [maybe_ack, h3] at hack
  rcases h4 : get_header_value frame HEADER_TRACE_ID with _ | tr <;>
    · simp [maybe_ack, h1, h2, h3, h4] at hack
      rw [← hack]
      exact ⟨rfl, rfl, rfl, rfl, rfl, rfl⟩

/-- C10 witness: the concrete ping, pong and ack frames all satisfy the
outbound control-frame shape. -/
theorem C10_witness :
    control_frame_shape (create_ping_frame 0) ∧
    control_frame_shape (pong_frame 9) ∧
    (∃ ack, maybe_ack dataFrameFull = some ack ∧ control_frame_shape ack) := by
  have h0 := C10_outbound_frames 0 [] dataFrameFull
  have h9 := C10_outbound_frames 9 [] dataFrameFull
  exact ⟨h0.1, h9.2.2.1, ⟨_, rfl, h0.2.2.2 _ rfl⟩⟩

end Sparky
